import Mathlib

/-!
Verification of the discrete-sequence delay application (`app.py`).

The app has two pieces of core logic:

* `build_sequence N pattern` — builds `n = np.arange(N)` and a value
  sequence `x` which is `np.ones(N)` when the pattern string is exactly
  `"Constant (x[n]=1)"`, and otherwise `np.zeros(N)` with the strided
  assignment `x[::3] = 1` (a pulse at every third index).
* the delayed sequence: `y = np.zeros(N); if k < N: y[k:] = x[:N-k]`,
  computed both for synthetic sequences and for an uploaded column that
  is first sliced to `x = data[:min(len(data), 200)]`.

Sequences are modelled as `List ℚ`; numpy arrays of real numbers carry
exact values here so that all predicates are decidable.
-/

namespace DelayApp

/-- The exact pattern string the source compares against
(`pattern == "Constant (x[n]=1)"` in `build_sequence`). -/
def constantPattern : String := "Constant (x[n]=1)"

/-- The other pattern string offered by the UI select box. -/
def pulsePattern : String := "Pulse / Periodic (1,0,0,...)"

/-- The strided in-place assignment `x[::s] = v` of numpy, modelled as a
pure index map over the array: position `i` receives `v` when `i % s = 0`
and keeps its old value otherwise.  Used by `build_sequence` with the
zero array, stride 3 and value 1. -/
def strideSet (x : List ℚ) (s : Nat) (v : ℚ) : List ℚ :=
  (List.range x.length).map (fun i => if i % s = 0 then v else x.getD i 0)

/-- `build_sequence(N, pattern)` from `app.py` (lines 17–25):
`n = np.arange(N)`; `x = np.ones(N)` when the pattern is the constant
string, otherwise `x = np.zeros(N)` followed by `x[::3] = 1`. -/
def build_sequence (N : Nat) (pattern : String) : List Nat × List ℚ :=
  let n := List.range N
  let x : List ℚ :=
    if pattern = constantPattern then List.replicate N 1
    else strideSet (List.replicate N 0) 3 1
  (n, x)

/-- The delayed sequence of `app.py` (lines 80–82 and 129–131):
`y = np.zeros(N)`, then when `k < N` the assignment `y[k:] = x[:N-k]`,
which makes `y` the first `k` zeros followed by the first `N - k`
entries of `x`. -/
def delay (x : List ℚ) (k : Nat) : List ℚ :=
  if k < x.length then
    (List.replicate x.length (0 : ℚ)).take k ++ x.take (x.length - k)
  else List.replicate x.length 0

/-- State of the two arrays involved in the delayed-sequence
computation: the input `x` and the output buffer `y`. -/
structure DelayState where
  x : List ℚ
  y : List ℚ
deriving DecidableEq, Repr

/-- The delayed-sequence computation as a state transformer: starting
from the input `x` and the freshly allocated buffer `np.zeros(N)`, the
conditional assignment `y[k:] = x[:N-k]` writes only into `y`; the `x`
component is merely read. -/
def delayRun (x : List ℚ) (k : Nat) : DelayState :=
  if k < x.length then
    ⟨x, (List.replicate x.length (0 : ℚ)).take k ++ x.take (x.length - k)⟩
  else ⟨x, List.replicate x.length 0⟩

/-- The delayed-sequence computation with numpy's shape check made
explicit: the slice assignment `y[k:] = x[:N-k]` succeeds exactly when
the destination slice and the source slice have the same length, and
raises (`none`) otherwise. -/
def delayChecked (x : List ℚ) (k : Nat) : Option (List ℚ) :=
  if k < x.length then
    if ((List.replicate x.length (0 : ℚ)).drop k).length =
        (x.take (x.length - k)).length then
      some ((List.replicate x.length (0 : ℚ)).take k ++ x.take (x.length - k))
    else none
  else some (List.replicate x.length 0)

/-- `build_sequence` with numpy's dimension check made explicit: the UI
passes an integer `N`, and `np.arange`, `np.ones` and `np.zeros` raise
(`none`) on a negative dimension and succeed otherwise. -/
def buildChecked (N : Int) (pattern : String) : Option (List Nat × List ℚ) :=
  if N < 0 then none else some (build_sequence N.toNat pattern)

/-- The external-data slice of `app.py` (lines 125–127):
`N = min(len(data), 200); x = data[:N]`. -/
def externalSlice (data : List ℚ) : List ℚ :=
  data.take (min data.length 200)

/-- Helper: the value at index `i` of the pulse array produced by
`x = np.zeros(N); x[::3] = 1` is 1 when `i` is a multiple of 3 and 0
otherwise. -/
theorem strideSet_pulse_getElem (N i : Nat) (hi : i < N) :
    (strideSet (List.replicate N (0 : ℚ)) 3 1)[i]? =
      some (if i % 3 = 0 then 1 else 0) := by
  by_cases h3 : i % 3 = 0 <;>
    simp [strideSet, List.getElem?_map, List.getElem?_range hi, h3, List.getD,
      List.getElem?_replicate, hi]

/-- Helper: the prefix of zeros written by `np.zeros(N)` has length `k`
once truncated at `k ≤ N`. -/
theorem take_replicate_length (N k : Nat) (h : k ≤ N) :
    ((List.replicate N (0 : ℚ)).take k).length = k := by
  simp [List.length_take]; omega

/-- C1: for `k < N`, the delayed sequence agrees with `x[n-k]` on
`k ≤ n < N` and is zero on `n < k`. -/
theorem delay_shift_spec (x : List ℚ) (k : Nat) (hk : k < x.length) :
    (∀ n, k ≤ n → n < x.length → (delay x k)[n]? = x[n - k]?) ∧
    (∀ n, n < k → (delay x k)[n]? = some 0) := by
  have hlen : ((List.replicate x.length (0 : ℚ)).take k).length = k :=
    take_replicate_length _ _ (Nat.le_of_lt hk)
  constructor
  · intro n hkn hn
    unfold delay
    rw [if_pos hk, List.getElem?_append_right (by rw [hlen]; exact hkn), hlen,
      List.getElem?_take, if_pos (by omega)]
  · intro n hnk
    unfold delay
    rw [if_pos hk, List.getElem?_append_left (by rw [hlen]; exact hnk),
      List.getElem?_take, if_pos hnk, List.getElem?_replicate,
      if_pos (by omega)]

/-- Witness for C1 at `x = [5, 3, 8, 1, 9, 2]`, `k = 2`. -/
theorem delay_shift_spec_witness :
    (delay [5, 3, 8, 1, 9, 2] 2)[4]? = ([5, 3, 8, 1, 9, 2] : List ℚ)[2]? ∧
    (delay [5, 3, 8, 1, 9, 2] 2)[1]? = some 0 :=
  ⟨(delay_shift_spec [5, 3, 8, 1, 9, 2] 2 (by decide)).1 4 (by decide) (by decide),
   (delay_shift_spec [5, 3, 8, 1, 9, 2] 2 (by decide)).2 1 (by decide)⟩

/-- C2: delaying by `k = 0` returns the input sequence unchanged. -/
theorem delay_zero_identity (x : List ℚ) : delay x 0 = x := by
  unfold delay
  by_cases h : 0 < x.length
  · rw [if_pos h]
    simp
  · rw [if_neg h]
    have : x.length = 0 := by omega
    rw [this, List.length_eq_zero.mp this, List.replicate]

/-- C3: for `k ≥ N` the delayed sequence is all zeros of length `N`. -/
theorem delay_degenerate (x : List ℚ) (k : Nat) (hk : x.length ≤ k) :
    delay x k = List.replicate x.length 0 := by
  unfold delay
  rw [if_neg (by omega)]

/-- Witness for C3 at `x = [1, 2]`, `k = 5`. -/
theorem delay_degenerate_witness :
    delay [1, 2] 5 = List.replicate 2 (0 : ℚ) :=
  delay_degenerate [1, 2] 5 (by decide)

/-- C4: the delayed sequence always has the same length as the input. -/
theorem delay_length_preserved (x : List ℚ) (k : Nat) :
    (delay x k).length = x.length := by
  unfold delay
  by_cases h : k < x.length
  · simp [h]
    omega
  · simp [h]

/-- C5: for `N > 0`, the constant pattern yields indices `0, ..., N-1`
and a length-`N` sequence that is 1 everywhere. -/
theorem build_constant_spec (N : Nat) (_hN : 0 < N) :
    (build_sequence N constantPattern).1 = List.range N ∧
    (build_sequence N constantPattern).2.length = N ∧
    ∀ i, i < N → (build_sequence N constantPattern).2[i]? = some 1 := by
  refine ⟨rfl, by simp [build_sequence], ?_⟩
  intro i hi
  simp [build_sequence, List.getElem?_replicate, hi]

/-- Witness for C5 at `N = 4`. -/
theorem build_constant_spec_witness :
    (build_sequence 4 constantPattern).1 = List.range 4 ∧
    (build_sequence 4 constantPattern).2.length = 4 ∧
    (build_sequence 4 constantPattern).2[2]? = some 1 :=
  ⟨(build_constant_spec 4 (by decide)).1,
   (build_constant_spec 4 (by decide)).2.1,
   (build_constant_spec 4 (by decide)).2.2 2 (by decide)⟩

/-- C6: for `N > 0` and `i < N`, the pulse pattern yields 1 at indices
divisible by 3 and 0 elsewhere. -/
theorem build_pulse_spec (N : Nat) (_hN : 0 < N) :
    ∀ i, i < N → (build_sequence N pulsePattern).2[i]? =
      some (if i % 3 = 0 then 1 else 0) := by
  intro i hi
  have hne : pulsePattern ≠ constantPattern := by decide
  unfold build_sequence
  rw [if_neg hne]
  exact strideSet_pulse_getElem N i hi

/-- Witness for C6 at `N = 5`, indices 3 and 4. -/
theorem build_pulse_spec_witness :
    (build_sequence 5 pulsePattern).2[3]? = some 1 ∧
    (build_sequence 5 pulsePattern).2[4]? = some 0 :=
  ⟨build_pulse_spec 5 (by decide) 3 (by decide),
   build_pulse_spec 5 (by decide) 4 (by decide)⟩

/-- C7: the external sequence handed to the delay operation is exactly
the first `min(len(data), 200)` entries of the uploaded column. -/
theorem externalSlice_spec (data : List ℚ) :
    (externalSlice data).length = min data.length 200 ∧
    ∀ i, i < min data.length 200 → (externalSlice data)[i]? = data[i]? := by
  constructor
  · simp [externalSlice]
  · intro i hi
    rw [externalSlice, List.getElem?_take, if_pos hi]

/-- Witness for C7 at `data = [5, 3, 8, 1, 9, 2]`. -/
theorem externalSlice_spec_witness :
    (externalSlice [5, 3, 8, 1, 9, 2]).length = min 6 200 ∧
    (externalSlice [5, 3, 8, 1, 9, 2])[2]? = ([5, 3, 8, 1, 9, 2] : List ℚ)[2]? :=
  ⟨(externalSlice_spec [5, 3, 8, 1, 9, 2]).1,
   (externalSlice_spec [5, 3, 8, 1, 9, 2]).2 2 (by decide)⟩

/-- C8: the delay computation only reads `x`: run as a state
transformer it leaves the input component untouched and writes its
result into the freshly allocated output buffer. -/
theorem delay_no_mutation (x : List ℚ) (k : Nat) :
    (delayRun x k).x = x ∧ (delayRun x k).y = delay x k := by
  unfold delayRun delay
  by_cases h : k < x.length <;> simp [h]

/-- C9: neither core function raises: the numpy shape checks inside
`build_sequence` succeed for every integer `N > 0`, and the slice
assignment inside the delay computation succeeds for every sequence `x`
and every `k ≥ 0`, including `k ≥ len(x)`. -/
theorem core_no_exceptions (N : Int) (pattern : String) (x : List ℚ) (k : Nat)
    (hN : 0 < N) :
    (buildChecked N pattern).isSome = true ∧
    delayChecked x k = some (delay x k) := by
  constructor
  · rw [buildChecked, if_neg (by omega)]
    rfl
  · unfold delayChecked delay
    by_cases h : k < x.length
    · rw [if_pos h, if_pos h, if_pos (by simp)]
    · rw [if_neg h, if_neg h]

/-- Witness for C9 at `N = 1`, the constant pattern, `x = [1, 2, 3]`,
`k = 7`. -/
theorem core_no_exceptions_witness :
    (buildChecked 1 constantPattern).isSome = true ∧
    delayChecked [1, 2, 3] 7 = some (delay [1, 2, 3] 7) :=
  core_no_exceptions 1 constantPattern [1, 2, 3] 7 (by decide)

/-- C10: any pattern string other than the exact constant string is
dispatched to the pulse branch: the result equals the pulse sequence,
1 at indices divisible by 3 and 0 elsewhere. -/
theorem build_dispatch_default_pulse (N : Nat) (pattern : String)
    (hp : pattern ≠ constantPattern) :
    (build_sequence N pattern).2 = (build_sequence N pulsePattern).2 ∧
    ∀ i, i < N → (build_sequence N pattern).2[i]? =
      some (if i % 3 = 0 then 1 else 0) := by
  have hne : pulsePattern ≠ constantPattern := by decide
  constructor
  · unfold build_sequence
    rw [if_neg hp, if_neg hne]
  · intro i hi
    unfold build_sequence
    rw [if_neg hp]
    exact strideSet_pulse_getElem N i hi

/-- Witness for C10 at `N = 4` and the pattern string `"Ramp"`. -/
theorem build_dispatch_default_pulse_witness :
    (build_sequence 4 "Ramp").2 = (build_sequence 4 pulsePattern).2 ∧
    (build_sequence 4 "Ramp").2[3]? = some 1 :=
  ⟨(build_dispatch_default_pulse 4 "Ramp" (by decide)).1,
   (build_dispatch_default_pulse 4 "Ramp" (by decide)).2 3 (by decide)⟩

end DelayApp
